import Mathlib

/-!
Shallow embedding of the Content Access Gating Engine
(`src/backend/services/content-gating.js` plus the SQL function
`calculate_course_completion` and the schema's table shapes).

Conventions of the embedding:
* UUIDs are modelled as `Nat`.
* SQL `TIMESTAMP` values and the JS `new Date()` clock are modelled as `Int`
  instants; a nullable timestamp is `Option Int`.  Each function that reads
  the clock takes `now : Int` explicitly.
* SQL `NULL`able columns are `Option`s.
* The database is a record of lists of rows; SQL queries are translated
  row-by-row (joins become nested traversals, `rows[0]` becomes `List.find?`).
* `DECIMAL` completion percentages are rationals (`ℚ`); the JS `Math.round`
  is `fun q => ⌊q + 1/2⌋`, which agrees with JS rounding on the nonnegative
  values that occur here.
* The JS access-result object `{hasAccess, code, message, metadata, timestamp}`
  is modelled as `{hasAccess, code, metadata}`: the `message` string and the
  ISO `timestamp` carry no decision content and no claim mentions them.
* A check helper that returns the bare `{hasAccess: true}` object on success
  and a full result on failure is modelled as `Option AccessResult`
  (`none` = pass, `some r` = the failure result `r`).
-/

/-- `progress_status` enum of the schema. -/
inductive ProgressStatus
  | not_started
  | in_progress
  | completed
deriving DecidableEq

/-- `subscription_status` enum of the schema. -/
inductive SubStatus
  | active
  | cancelled
  | expired
  | trial
deriving DecidableEq

/-- `content_level` enum of the schema. -/
inductive Level
  | beginner
  | intermediate
  | advanced
deriving DecidableEq

/-- The `contentType` argument of `checkContentAccess`. -/
inductive ContentType
  | course
  | module
  | lesson
deriving DecidableEq

/-- Decision codes produced by the service (plus `ALREADY_ENROLLED`,
which `enrollUser` uses). -/
inductive AccessCode
  | ACCESS_GRANTED
  | CONTENT_NOT_PUBLISHED
  | USER_NOT_VERIFIED
  | SUBSCRIPTION_REQUIRED
  | SUBSCRIPTION_EXPIRED
  | PREREQUISITE_LEVEL_NOT_COMPLETED
  | PREREQUISITES_NOT_MET
  | NOT_ENROLLED
  | ENROLLMENT_INACTIVE
  | ENROLLMENT_EXPIRED
  | CONTENT_NOT_FOUND
  | USER_NOT_FOUND
  | SYSTEM_ERROR
  | ALREADY_ENROLLED
deriving DecidableEq

/-- The `metadata` field of an access result. -/
inductive Metadata
  | empty
  | levelGate (requiredCompletion : Int) (currentCompletion : Int)
  | prereq (incompletePrerequisites : List Nat)
deriving DecidableEq

/-- `createAccessResult` output, without the `message`/`timestamp` fields
(see the header comment). -/
structure AccessResult where
  hasAccess : Bool
  code : AccessCode
  metadata : Metadata
deriving DecidableEq

/-- `createAccessResult(hasAccess, code, message, metadata = {})`. -/
def createAccessResult (hasAccess : Bool) (code : AccessCode)
    (metadata : Metadata) : AccessResult :=
  ⟨hasAccess, code, metadata⟩

/-- A row of `users` (the columns the service reads). -/
structure UserRow where
  id : Nat
  is_active : Bool
  is_verified : Bool
deriving DecidableEq

/-- A row of `subscriptions` (the columns the service reads). -/
structure SubscriptionRow where
  user_id : Nat
  status : SubStatus
  current_period_end : Option Int
  trial_end : Option Int
deriving DecidableEq

/-- A row of `courses` (the columns the service reads).
`prerequisites UUID[]` is an array of course ids. -/
structure CourseRow where
  id : Nat
  level : Level
  is_published : Bool
  is_free : Bool
  requires_subscription : Bool
  prerequisites : List Nat
deriving DecidableEq

/-- A row of `modules` (the columns the service reads).
`prerequisites UUID[]` is an array of module ids. -/
structure ModuleRow where
  id : Nat
  course_id : Nat
  prerequisites : List Nat
deriving DecidableEq

/-- A row of `lessons` (the columns the service reads).  The schema gives
lessons no `prerequisites` column. -/
structure LessonRow where
  id : Nat
  module_id : Nat
deriving DecidableEq

/-- A row of `user_progress` (the columns the service reads). -/
structure ProgressRow where
  user_id : Nat
  course_id : Nat
  module_id : Option Nat
  lesson_id : Option Nat
  status : ProgressStatus
deriving DecidableEq

/-- A row of `enrollments` (the columns the service reads). -/
structure EnrollmentRow where
  user_id : Nat
  course_id : Nat
  is_active : Bool
  expires_at : Option Int
deriving DecidableEq

/-- The relational state the service queries. -/
structure Db where
  users : List UserRow
  subscriptions : List SubscriptionRow
  courses : List CourseRow
  modules : List ModuleRow
  lessons : List LessonRow
  user_progress : List ProgressRow
  enrollments : List EnrollmentRow
deriving DecidableEq

/-- The row shape produced by `getUserWithSubscription`'s
`users LEFT JOIN subscriptions` query: user columns plus nullable
subscription columns. -/
structure UserWithSub where
  id : Nat
  is_verified : Bool
  subscription_status : Option SubStatus
  current_period_end : Option Int
  trial_end : Option Int
deriving DecidableEq

/-- `getUserWithSubscription(userId)`: first `users` row with the given id
and `is_active = true`, left-joined with the first `subscriptions` row of
that user (`rows[0] || null`). -/
def getUserWithSubscription (db : Db) (userId : Nat) : Option UserWithSub :=
  (db.users.find? (fun u => decide (u.id = userId ∧ u.is_active = true))).map
    (fun u =>
      match db.subscriptions.find? (fun s => decide (s.user_id = u.id)) with
      | some s =>
          ⟨u.id, u.is_verified, some s.status, s.current_period_end, s.trial_end⟩
      | none => ⟨u.id, u.is_verified, none, none, none⟩)

/-- The row shape produced by `getContentDetails`.  For a course the row
carries the course's own prerequisites; for a module the module's
prerequisites joined with its course's flags; for a lesson the query
selects *no* prerequisites column at all, so the field is `none`. -/
structure ContentRow where
  id : Nat
  level : Level
  is_published : Bool
  is_free : Bool
  requires_subscription : Bool
  prerequisites : Option (List Nat)
  course_id : Option Nat
  module_id : Option Nat
deriving DecidableEq

/-- `getContentDetails(contentId, contentType)`. -/
def getContentDetails (db : Db) (contentId : Nat) (contentType : ContentType) :
    Option ContentRow :=
  match contentType with
  | .course =>
      (db.courses.find? (fun c => decide (c.id = contentId))).map (fun c =>
        ⟨c.id, c.level, c.is_published, c.is_free, c.requires_subscription,
          some c.prerequisites, none, none⟩)
  | .module =>
      (db.modules.find? (fun m => decide (m.id = contentId))).bind (fun m =>
        (db.courses.find? (fun c => decide (c.id = m.course_id))).map (fun c =>
          ⟨m.id, c.level, c.is_published, c.is_free, c.requires_subscription,
            some m.prerequisites, some c.id, none⟩))
  | .lesson =>
      (db.lessons.find? (fun l => decide (l.id = contentId))).bind (fun l =>
        (db.modules.find? (fun m => decide (m.id = l.module_id))).bind (fun m =>
          (db.courses.find? (fun c => decide (c.id = m.course_id))).map (fun c =>
            ⟨l.id, c.level, c.is_published, c.is_free, c.requires_subscription,
              none, some c.id, some m.id⟩)))

/-- Join multiplicity of one lesson against `modules` for a given course:
the number of `modules` rows `m` with `l.module_id = m.id` and
`m.course_id = courseId`. -/
def lessonModuleMatches (db : Db) (courseId : Nat) (l : LessonRow) : Nat :=
  (db.modules.filter
    (fun m => decide (l.module_id = m.id ∧ m.course_id = courseId))).length

/-- `total_lessons` of `calculate_course_completion`:
`COUNT(*) FROM lessons l JOIN modules m ON l.module_id = m.id
WHERE m.course_id = p_course_id` (a count of join pairs). -/
def totalLessonCount (db : Db) (courseId : Nat) : Nat :=
  (db.lessons.map (lessonModuleMatches db courseId)).sum

/-- `completed_lessons` of `calculate_course_completion`:
`COUNT(*) FROM user_progress up JOIN lessons l ON up.lesson_id = l.id
JOIN modules m ON l.module_id = m.id WHERE up.user_id = p_user_id AND
m.course_id = p_course_id AND up.status = completed` (join pairs). -/
def completedLessonCount (db : Db) (userId courseId : Nat) : Nat :=
  (db.user_progress.map (fun up =>
    if decide (up.user_id = userId ∧ up.status = ProgressStatus.completed) then
      (db.lessons.map (fun l =>
        if decide (up.lesson_id = some l.id) then
          lessonModuleMatches db courseId l
        else 0)).sum
    else 0)).sum

/-- SQL function `calculate_course_completion(p_user_id, p_course_id)`. -/
def calculate_course_completion (db : Db) (userId courseId : Nat) : ℚ :=
  let total := totalLessonCount db courseId
  let completed := completedLessonCount db userId courseId
  if 0 < total then (completed : ℚ) / (total : ℚ) * 100 else 0

/-- JS `Math.round` on the nonnegative rationals that occur here:
round half up. -/
def roundQ (q : ℚ) : Int := ⌊q + 1 / 2⌋

/-- The unrounded `AVG(completion_percentage)` of `getLevelCompletion`'s
subquery over all published courses at `level` (SQL `AVG` of the empty
set is `NULL`, which the JS `|| 0` turns into `0`). -/
def levelAvgQ (db : Db) (userId : Nat) (level : Level) : ℚ :=
  let cs := db.courses.filter
    (fun c => decide (c.level = level ∧ c.is_published = true))
  if cs.length = 0 then 0
  else (cs.map (fun c => calculate_course_completion db userId c.id)).sum
        / (cs.length : ℚ)

/-- `getLevelCompletion(userId, level)`:
`Math.round(result.rows[0].avg_completion || 0)`. -/
def getLevelCompletion (db : Db) (userId : Nat) (level : Level) : Int :=
  roundQ (levelAvgQ db userId level)

/-- `checkSubscriptionAccess(user, content)`: `none` = pass. -/
def checkSubscriptionAccess (now : Int) (user : UserWithSub)
    (content : ContentRow) : Option AccessResult :=
  if content.is_free then none
  else if content.requires_subscription then
    if user.subscription_status ≠ some SubStatus.active then
      match user.trial_end with
      | some t => if now < t then none
          else some (createAccessResult false .SUBSCRIPTION_REQUIRED .empty)
      | none => some (createAccessResult false .SUBSCRIPTION_REQUIRED .empty)
    else
      match user.current_period_end with
      | some e => if e < now then
            some (createAccessResult false .SUBSCRIPTION_EXPIRED .empty)
          else none
      | none => none
  else none

/-- `checkLevelAccess(userId, content)`: `none` = pass. -/
def checkLevelAccess (db : Db) (userId : Nat) (content : ContentRow) :
    Option AccessResult :=
  match content.level with
  | .beginner => none
  | .intermediate =>
      let bc := getLevelCompletion db userId .beginner
      if bc < 80 then
        some (createAccessResult false .PREREQUISITE_LEVEL_NOT_COMPLETED
          (.levelGate 80 bc))
      else none
  | .advanced =>
      let ic := getLevelCompletion db userId .intermediate
      if ic < 80 then
        some (createAccessResult false .PREREQUISITE_LEVEL_NOT_COMPLETED
          (.levelGate 80 ic))
      else none

/-- The batched prerequisite query's per-id outcome: `true` iff some
`user_progress` row of the user matches the id at the granularity the
query uses for this `contentType` (`course_id` column for course content,
`module_id` column otherwise) with `status = completed`. -/
def prereqCompleted (db : Db) (userId : Nat) (contentType : ContentType)
    (pid : Nat) : Bool :=
  if contentType = ContentType.course then
    db.user_progress.any (fun up =>
      decide (up.user_id = userId ∧ up.course_id = pid ∧
        up.status = ProgressStatus.completed))
  else
    db.user_progress.any (fun up =>
      decide (up.user_id = userId ∧ up.module_id = some pid ∧
        up.status = ProgressStatus.completed))

/-- `checkPrerequisites(userId, content, contentType)`: `none` = pass.
A missing (`undefined`) or empty prerequisite array passes immediately. -/
def checkPrerequisites (db : Db) (userId : Nat) (content : ContentRow)
    (contentType : ContentType) : Option AccessResult :=
  match content.prerequisites with
  | none => none
  | some [] => none
  | some prereqIds =>
      let incomplete :=
        prereqIds.filter (fun pid => !prereqCompleted db userId contentType pid)
      if 0 < incomplete.length then
        some (createAccessResult false .PREREQUISITES_NOT_MET
          (.prereq incomplete))
      else none

/-- `checkEnrollment(userId, courseId)`: `none` = pass. -/
def checkEnrollment (db : Db) (now : Int) (userId courseId : Nat) :
    Option AccessResult :=
  match db.enrollments.find?
    (fun e => decide (e.user_id = userId ∧ e.course_id = courseId)) with
  | none => some (createAccessResult false .NOT_ENROLLED .empty)
  | some e =>
      if e.is_active = false then
        some (createAccessResult false .ENROLLMENT_INACTIVE .empty)
      else
        match e.expires_at with
        | some t => if t < now then
              some (createAccessResult false .ENROLLMENT_EXPIRED .empty)
            else none
        | none => none

/-- `performAccessChecks(user, content, contentType)`. -/
def performAccessChecks (db : Db) (now : Int) (user : UserWithSub)
    (content : ContentRow) (contentType : ContentType) : AccessResult :=
  if content.is_published = false then
    createAccessResult false .CONTENT_NOT_PUBLISHED .empty
  else if user.is_verified = false then
    createAccessResult false .USER_NOT_VERIFIED .empty
  else
    match checkSubscriptionAccess now user content with
    | some r => r
    | none =>
      match checkLevelAccess db user.id content with
      | some r => r
      | none =>
        match checkPrerequisites db user.id content contentType with
        | some r => r
        | none =>
          if contentType = ContentType.course then
            match checkEnrollment db now user.id content.id with
            | some r => r
            | none => createAccessResult true .ACCESS_GRANTED .empty
          else createAccessResult true .ACCESS_GRANTED .empty

/-- The fault-free core of `checkContentAccess` after a cache miss:
load user, load content, run the checks. -/
def evaluateAccess (db : Db) (now : Int) (userId contentId : Nat)
    (contentType : ContentType) : AccessResult :=
  match getUserWithSubscription db userId with
  | none => createAccessResult false .USER_NOT_FOUND .empty
  | some user =>
      match getContentDetails db contentId contentType with
      | none => createAccessResult false .CONTENT_NOT_FOUND .empty
      | some content => performAccessChecks db now user content contentType

/-- `checkContentAccess(userId, contentId, contentType)` with the cache
interactions made explicit.  `cacheRead` is the outcome of
`redis.get(cacheKey)` (`Except.error` = the promise rejected,
`some cached` = hit, `none` = miss); `cacheWrite` is the outcome of
`redis.setex`.  The whole body sits in one `try/catch` whose handler
returns a `SYSTEM_ERROR` result, so either fault lands there. -/
def checkContentAccess (db : Db) (now : Int)
    (cacheRead : Except Unit (Option AccessResult))
    (cacheWrite : Except Unit Unit)
    (userId contentId : Nat) (contentType : ContentType) : AccessResult :=
  match cacheRead with
  | .error _ => createAccessResult false .SYSTEM_ERROR .empty
  | .ok (some cached) => cached
  | .ok none =>
      let accessResult := evaluateAccess db now userId contentId contentType
      match cacheWrite with
      | .error _ => createAccessResult false .SYSTEM_ERROR .empty
      | .ok _ => accessResult

/-- Outcome of `enrollUser`: `{success: true, ...}` or
`{success: false, code}`. -/
inductive EnrollResult
  | success
  | failure (code : AccessCode)
deriving DecidableEq

/-- `enrollUser(userId, courseId)` with a healthy cache holding `cached`
at the key `(userId, courseId, 'course')` (the inner `checkContentAccess`
call reads this entry first and computes only on a miss), and a healthy
enrollment store without concurrent writers. -/
def enrollUser (db : Db) (cached : Option AccessResult) (now : Int)
    (userId courseId : Nat) : EnrollResult :=
  let access :=
    match cached with
    | some d => d
    | none => evaluateAccess db now userId courseId .course
  if access.hasAccess = false then .failure access.code
  else if (db.enrollments.any
      (fun e => decide (e.user_id = userId ∧ e.course_id = courseId))) then
    .failure .ALREADY_ENROLLED
  else .success

/-! ### Cache/enrollment state machine (engine-reachable states)

The engine's own write effects are the cache entries written by
`checkContentAccess`, the enrollment rows inserted by `enrollUser`, and the
per-user cache clearing of `clearUserContentCache`.  The rest of the
database (users, subscriptions, content, progress) is owned by external
subsystems, so each step takes it as an arbitrary `EnvDb` argument. -/

/-- The externally-owned portion of the database. -/
structure EnvDb where
  users : List UserRow
  subscriptions : List SubscriptionRow
  courses : List CourseRow
  modules : List ModuleRow
  lessons : List LessonRow
  user_progress : List ProgressRow
deriving DecidableEq

/-- Assemble a full `Db` from the external data and the engine-owned
enrollment rows. -/
def mkDb (env : EnvDb) (enrollments : List EnrollmentRow) : Db :=
  ⟨env.users, env.subscriptions, env.courses, env.modules, env.lessons,
    env.user_progress, enrollments⟩

/-- Redis key `content_access:${userId}:${contentId}:${contentType}`. -/
structure CacheKey where
  userId : Nat
  contentId : Nat
  contentType : ContentType
deriving DecidableEq

/-- Engine-owned state: the decision cache and the enrollment rows. -/
structure SysState where
  cache : List (CacheKey × AccessResult)
  enrollments : List EnrollmentRow
deriving DecidableEq

/-- `clearUserContentCache(userId)`: drop every cache entry of the user. -/
def clearUserCache (userId : Nat) (cache : List (CacheKey × AccessResult)) :
    List (CacheKey × AccessResult) :=
  cache.filter (fun e => !decide (e.1.userId = userId))

/-- `checkContentAccess` as a state transformer (healthy cache): serve a
hit unchanged, otherwise compute and store the decision. -/
def checkOp (env : EnvDb) (now : Int) (userId contentId : Nat)
    (contentType : ContentType) (s : SysState) : AccessResult × SysState :=
  let key : CacheKey := ⟨userId, contentId, contentType⟩
  match s.cache.find? (fun e => decide (e.1 = key)) with
  | some e => (e.2, s)
  | none =>
      let d := evaluateAccess (mkDb env s.enrollments) now userId contentId
        contentType
      (d, ⟨(key, d) :: s.cache, s.enrollments⟩)

/-- The row `INSERT INTO enrollments (user_id, course_id, enrolled_at)`
creates: `is_active` defaults to `true`, `expires_at` to `NULL`. -/
def freshEnrollment (userId courseId : Nat) : EnrollmentRow :=
  ⟨userId, courseId, true, none⟩

/-- `enrollUser` as a state transformer (healthy stores, no concurrent
writer): access check through the cache, then the existence `SELECT`,
then the `INSERT` followed by `clearUserContentCache`. -/
def enrollOp (env : EnvDb) (now : Int) (userId courseId : Nat)
    (s : SysState) : EnrollResult × SysState :=
  let r := checkOp env now userId courseId .course s
  let access := r.1
  let s1 := r.2
  if access.hasAccess = false then (.failure access.code, s1)
  else if s1.enrollments.any
      (fun e => decide (e.user_id = userId ∧ e.course_id = courseId)) then
    (.failure .ALREADY_ENROLLED, s1)
  else
    (.success,
      ⟨clearUserCache userId s1.cache,
        freshEnrollment userId courseId :: s1.enrollments⟩)

/-- A standalone `clearUserContentCache(userId)` step (also covers cache
TTL expiry, which only removes entries). -/
def invalidateOp (userId : Nat) (s : SysState) : SysState :=
  ⟨clearUserCache userId s.cache, s.enrollments⟩

/-- States reachable from an empty cache and an empty enrollment table by
the engine's own operations, with the externally-owned data free to change
between steps. -/
inductive Reachable : SysState → Prop
  | init : Reachable ⟨[], []⟩
  | check (env : EnvDb) (now : Int) (userId contentId : Nat)
      (contentType : ContentType) {s : SysState} :
      Reachable s → Reachable (checkOp env now userId contentId contentType s).2
  | enroll (env : EnvDb) (now : Int) (userId courseId : Nat) {s : SysState} :
      Reachable s → Reachable (enrollOp env now userId courseId s).2
  | invalidate (userId : Nat) {s : SysState} :
      Reachable s → Reachable (invalidateOp userId s)

/-! ### Two racing `enrollUser` calls (C8 scenario)

The only states in which `enrollUser` can reach its `INSERT` are those
where the cache holds a stale granted decision for the course key while no
enrollment row exists.  The race model fixes such a state and interleaves
the two callers' three database interactions: the access check (a cache
read, recomputed and written back on a miss), the existence `SELECT`, and
the `INSERT` (which raises a uniqueness violation if the row appeared in
between; `enrollUser`'s generic `catch` turns that into `SYSTEM_ERROR`). -/

/-- The fixed external data of the race scenario: verified active user 1
and published free beginner course 2 (so a fresh evaluation grants
whenever the enrollment row exists, and the enrollment check is the only
check that can fail). -/
def raceEnv : EnvDb :=
  ⟨[⟨1, true, true⟩], [], [⟨2, .beginner, true, true, false, []⟩], [], [], []⟩

/-- Shared state plus each caller's program counter and result.
`pc = 0`: about to run the access check; `1`: about to run the existence
`SELECT`; `2`: about to run the `INSERT`; `3`: finished. -/
structure RaceState where
  hasRow : Bool
  cache : Option AccessResult
  pc1 : Nat
  res1 : Option EnrollResult
  pc2 : Nat
  res2 : Option EnrollResult
deriving DecidableEq

/-- One caller's next atomic step against the shared state. -/
def raceStep (hasRow : Bool) (cache : Option AccessResult) (pc : Nat)
    (res : Option EnrollResult) :
    Bool × Option AccessResult × Nat × Option EnrollResult :=
  match pc with
  | 0 =>
      let enrolls := if hasRow then [freshEnrollment 1 2] else []
      let access :=
        match cache with
        | some d => d
        | none => evaluateAccess (mkDb raceEnv enrolls) 0 1 2 .course
      let cache1 := match cache with | some d => some d | none => some access
      if access.hasAccess then (hasRow, cache1, 1, res)
      else (hasRow, cache1, 3, some (.failure access.code))
  | 1 =>
      if hasRow then (hasRow, cache, 3, some (.failure .ALREADY_ENROLLED))
      else (hasRow, cache, 2, res)
  | 2 =>
      if hasRow then (hasRow, cache, 3, some (.failure .SYSTEM_ERROR))
      else (true, none, 3, some .success)
  | _ => (hasRow, cache, pc, res)

/-- Run one scheduler tick: `true` steps caller 1, `false` steps caller 2. -/
def raceTick (s : RaceState) (b : Bool) : RaceState :=
  if b then
    let r := raceStep s.hasRow s.cache s.pc1 s.res1
    ⟨r.1, r.2.1, r.2.2.1, r.2.2.2, s.pc2, s.res2⟩
  else
    let r := raceStep s.hasRow s.cache s.pc2 s.res2
    ⟨r.1, r.2.1, s.pc1, s.res1, r.2.2.1, r.2.2.2⟩

/-- Run a whole schedule. -/
def raceRun (sched : List Bool) (s : RaceState) : RaceState :=
  sched.foldl raceTick s

/-- The race's start state: no enrollment row, stale cached grant for the
key `(1, 2, course)`. -/
def raceInit : RaceState :=
  ⟨false, some (createAccessResult true .ACCESS_GRANTED .empty),
    0, none, 0, none⟩

/-! ### Spec-side definitions and shared lemmas -/

/-- Modelled from the spec: the published fixed check order
(publication, verification, subscription, level gate, prerequisites, and —
for courses only — enrollment), each entry `none` when the check passes
and `some r` when it fails with result `r`. -/
def specOrderedChecks (db : Db) (now : Int) (user : UserWithSub)
    (content : ContentRow) (contentType : ContentType) :
    List (Option AccessResult) :=
  [if content.is_published = false then
      some (createAccessResult false .CONTENT_NOT_PUBLISHED .empty) else none,
   if user.is_verified = false then
      some (createAccessResult false .USER_NOT_VERIFIED .empty) else none,
   checkSubscriptionAccess now user content,
   checkLevelAccess db user.id content,
   checkPrerequisites db user.id content contentType] ++
  (if contentType = ContentType.course then
      [checkEnrollment db now user.id content.id] else [])

/-- Modelled from the spec: the decision of the short-circuiting pipeline
is the result of the earliest failing check, and `ACCESS_GRANTED` when
every check passes. -/
def specFirstFailure (db : Db) (now : Int) (user : UserWithSub)
    (content : ContentRow) (contentType : ContentType) : AccessResult :=
  ((specOrderedChecks db now user content contentType).filterMap id).headD
    (createAccessResult true .ACCESS_GRANTED .empty)

theorem checkSubscriptionAccess_failure (now : Int) (user : UserWithSub)
    (content : ContentRow) (r : AccessResult)
    (h : checkSubscriptionAccess now user content = some r) :
    r.hasAccess = false ∧
      (r.code = .SUBSCRIPTION_REQUIRED ∨ r.code = .SUBSCRIPTION_EXPIRED) := by
  unfold checkSubscriptionAccess at h
  repeat' split at h
  all_goals simp_all [createAccessResult]
  all_goals subst h
  all_goals simp

theorem checkLevelAccess_failure (db : Db) (userId : Nat)
    (content : ContentRow) (r : AccessResult)
    (h : checkLevelAccess db userId content = some r) :
    r.hasAccess = false ∧ r.code = .PREREQUISITE_LEVEL_NOT_COMPLETED := by
  unfold checkLevelAccess at h
  repeat' split at h
  all_goals simp_all [createAccessResult]
  all_goals obtain ⟨-, rfl⟩ := h
  all_goals simp

theorem checkPrerequisites_failure (db : Db) (userId : Nat)
    (content : ContentRow) (contentType : ContentType) (r : AccessResult)
    (h : checkPrerequisites db userId content contentType = some r) :
    r.hasAccess = false ∧ r.code = .PREREQUISITES_NOT_MET := by
  unfold checkPrerequisites at h
  repeat' split at h
  all_goals simp_all [createAccessResult]
  all_goals obtain ⟨-, rfl⟩ := h
  all_goals simp

theorem checkEnrollment_failure (db : Db) (now : Int) (userId courseId : Nat)
    (r : AccessResult) (h : checkEnrollment db now userId courseId = some r) :
    r.hasAccess = false ∧
      (r.code = .NOT_ENROLLED ∨ r.code = .ENROLLMENT_INACTIVE ∨
        r.code = .ENROLLMENT_EXPIRED) := by
  unfold checkEnrollment at h
  repeat' split at h
  all_goals simp_all [createAccessResult]
  all_goals subst h
  all_goals simp

/-- **C1.**  `performAccessChecks` returns the result of the earliest
failing check in the fixed order publication, verification, subscription,
level gate, prerequisites, enrollment (the latter only for courses), and
grants (`ACCESS_GRANTED`) exactly when every check in that order passes. -/
theorem performAccessChecks_first_failure (db : Db) (now : Int)
    (user : UserWithSub) (content : ContentRow) (contentType : ContentType) :
    performAccessChecks db now user content contentType =
      specFirstFailure db now user content contentType ∧
    ((performAccessChecks db now user content contentType).hasAccess = true ↔
      (specOrderedChecks db now user content contentType).all Option.isNone
        = true) := by
  cases hP : content.is_published <;> cases hV : user.is_verified <;>
    cases hS : checkSubscriptionAccess now user content <;>
    cases hL : checkLevelAccess db user.id content <;>
    cases hQ : checkPrerequisites db user.id content contentType <;>
    cases hE : checkEnrollment db now user.id content.id
  all_goals have hS1 : ∀ r, checkSubscriptionAccess now user content = some r →
    r.hasAccess = false :=
    fun r hr => (checkSubscriptionAccess_failure now user content r hr).1
  all_goals have hL1 : ∀ r, checkLevelAccess db user.id content = some r →
    r.hasAccess = false :=
    fun r hr => (checkLevelAccess_failure db user.id content r hr).1
  all_goals have hQ1 : ∀ r,
    checkPrerequisites db user.id content contentType = some r →
    r.hasAccess = false :=
    fun r hr =>
      (checkPrerequisites_failure db user.id content contentType r hr).1
  all_goals have hE1 : ∀ r, checkEnrollment db now user.id content.id = some r →
    r.hasAccess = false :=
    fun r hr => (checkEnrollment_failure db now user.id content.id r hr).1
  all_goals cases contentType
  all_goals simp_all [performAccessChecks, specFirstFailure, specOrderedChecks,
    createAccessResult]

/-! ### C2: subscription / free-content check -/

/-- Modelled from the spec: "`trialEnd` is in the future". -/
def specTrialFuture (now : Int) (user : UserWithSub) : Bool :=
  match user.trial_end with
  | some t => decide (now < t)
  | none => false

/-- Modelled from the spec: "`currentPeriodEnd` has elapsed". -/
def specPeriodElapsed (now : Int) (user : UserWithSub) : Bool :=
  match user.current_period_end with
  | some e => decide (e < now)
  | none => false

/-- Modelled from the spec: the claim's pass condition for the
subscription check — free content, or content not requiring a
subscription, or an active unexpired subscription, OR a trial end in the
future (the claimed trial override, unconditional on status). -/
def specSubscriptionPass (now : Int) (user : UserWithSub)
    (content : ContentRow) : Bool :=
  content.is_free || !content.requires_subscription ||
    ((user.subscription_status == some SubStatus.active) &&
      !specPeriodElapsed now user) ||
    specTrialFuture now user

/-- A user row whose subscription is `active` with an elapsed
`current_period_end` (at `now = 0`) but a `trial_end` in the future. -/
def userActiveExpiredTrial : UserWithSub := ⟨1, true, some .active, some (-1), some 10⟩

/-- Published non-free subscription-only beginner course content. -/
def paidContent : ContentRow := ⟨2, .beginner, true, false, true, some [], none, none⟩

/-- The database behind `userActiveExpiredTrial` and `paidContent`. -/
def dbTrialOverride : Db :=
  ⟨[⟨1, true, true⟩], [⟨1, .active, some (-1), some 10⟩],
   [⟨2, .beginner, true, false, true, []⟩], [], [], [], []⟩

/-- **C2 counterexample.**  For a user whose subscription status is
`active` with an elapsed `current_period_end` but a future `trial_end`,
the claim's pass condition holds (the trial is in the future), yet the
code fails the check and `evaluate` returns `SUBSCRIPTION_EXPIRED`: the
trial is consulted only when the status is *not* `active`, so it does not
override an expired active period. -/
theorem subscription_trial_override_counterexample :
    specSubscriptionPass 0 userActiveExpiredTrial paidContent = true ∧
    checkSubscriptionAccess 0 userActiveExpiredTrial paidContent =
      some (createAccessResult false .SUBSCRIPTION_EXPIRED .empty) ∧
    evaluateAccess dbTrialOverride 0 1 2 .course =
      createAccessResult false .SUBSCRIPTION_EXPIRED .empty := by decide

/-- **C2 amended.**  The subscription check passes iff the content is
free, or does not require a subscription, or the subscription status is
`active` with no elapsed period end, or the status is *not* `active` and
the trial end is in the future (the trial overrides only a non-active
status).  It fails with `SUBSCRIPTION_EXPIRED` exactly when non-free
subscription-required content meets an `active` status whose period has
elapsed, and with `SUBSCRIPTION_REQUIRED` exactly when it meets a
non-active status with no future trial.  Moreover `evaluate` never
returns `SUBSCRIPTION_REQUIRED` or `SUBSCRIPTION_EXPIRED` for free
content, regardless of subscription state. -/
theorem subscription_check_characterization :
    (∀ (now : Int) (user : UserWithSub) (content : ContentRow),
      (checkSubscriptionAccess now user content = none ↔
        (content.is_free = true ∨ content.requires_subscription = false ∨
         (user.subscription_status = some SubStatus.active ∧
           specPeriodElapsed now user = false) ∨
         (user.subscription_status ≠ some SubStatus.active ∧
           specTrialFuture now user = true))) ∧
      (checkSubscriptionAccess now user content =
          some (createAccessResult false .SUBSCRIPTION_EXPIRED .empty) ↔
        (content.is_free = false ∧ content.requires_subscription = true ∧
         user.subscription_status = some SubStatus.active ∧
         specPeriodElapsed now user = true)) ∧
      (checkSubscriptionAccess now user content =
          some (createAccessResult false .SUBSCRIPTION_REQUIRED .empty) ↔
        (content.is_free = false ∧ content.requires_subscription = true ∧
         user.subscription_status ≠ some SubStatus.active ∧
         specTrialFuture now user = false))) ∧
    (∀ (db : Db) (now : Int) (userId contentId : Nat)
        (contentType : ContentType) (content : ContentRow),
      getContentDetails db contentId contentType = some content →
      content.is_free = true →
      (evaluateAccess db now userId contentId contentType).code ≠
        .SUBSCRIPTION_REQUIRED ∧
      (evaluateAccess db now userId contentId contentType).code ≠
        .SUBSCRIPTION_EXPIRED) := by
  constructor
  · intro now user content
    by_cases hA : user.subscription_status = some SubStatus.active <;>
      cases hf : content.is_free <;> cases hr : content.requires_subscription <;>
      cases ht : user.trial_end <;> cases hc : user.current_period_end <;>
      simp_all [checkSubscriptionAccess, createAccessResult, specPeriodElapsed,
        specTrialFuture]
  · intro db now userId contentId contentType content hg hf
    unfold evaluateAccess
    cases hu : getUserWithSubscription db userId
    · simp [createAccessResult]
    · rename_i user
      rw [hg]
      unfold performAccessChecks
      have hsub : checkSubscriptionAccess now user content = none := by
        unfold checkSubscriptionAccess
        simp [hf]
      cases hP : content.is_published <;> cases hV : user.is_verified <;>
        cases hL : checkLevelAccess db user.id content <;>
        cases hQ : checkPrerequisites db user.id content contentType <;>
        cases hE : checkEnrollment db now user.id content.id
      all_goals have hL1 := fun r hr =>
        (checkLevelAccess_failure db user.id content r hr).2
      all_goals have hQ1 := fun r hr =>
        (checkPrerequisites_failure db user.id content contentType r hr).2
      all_goals have hE1 := fun r hr =>
        (checkEnrollment_failure db now user.id content.id r hr).2
      all_goals cases contentType
      all_goals simp_all [createAccessResult]
      all_goals rcases hE1 with h1 | h1 | h1 <;> simp [h1]

/-! ### C6: cache faults -/

/-- An empty database (no users, no content). -/
def dbEmpty : Db := ⟨[], [], [], [], [], [], []⟩

/-- **C6 counterexample.**  With a failing cache read, `checkContentAccess`
returns `SYSTEM_ERROR` even though the direct computation would return
`USER_NOT_FOUND`: the redis calls sit inside the same `try/catch` as the
rest of the body, so a cache fault is surfaced as `SYSTEM_ERROR` instead
of falling back to the computed decision. -/
theorem cache_fault_counterexample :
    checkContentAccess dbEmpty 0 (.error ()) (.ok ()) 1 2 .course =
      createAccessResult false .SYSTEM_ERROR .empty ∧
    evaluateAccess dbEmpty 0 1 2 .course =
      createAccessResult false .USER_NOT_FOUND .empty ∧
    createAccessResult false .SYSTEM_ERROR .empty ≠
      createAccessResult false .USER_NOT_FOUND .empty := by decide

/-- **C6 amended.**  A cache error on read — or on write, even after the
decision has been computed — makes `checkContentAccess` return
`SYSTEM_ERROR`; only with a healthy cache does a miss return the directly
computed decision, and a hit the cached one verbatim. -/
theorem cache_fault_system_error (db : Db) (now : Int)
    (cacheWrite : Except Unit Unit) (userId contentId : Nat)
    (contentType : ContentType) :
    checkContentAccess db now (.error ()) cacheWrite userId contentId
        contentType = createAccessResult false .SYSTEM_ERROR .empty ∧
    checkContentAccess db now (.ok none) (.error ()) userId contentId
        contentType = createAccessResult false .SYSTEM_ERROR .empty ∧
    checkContentAccess db now (.ok none) (.ok ()) userId contentId
        contentType = evaluateAccess db now userId contentId contentType ∧
    ∀ d, checkContentAccess db now (.ok (some d)) cacheWrite userId contentId
        contentType = d := by
  refine ⟨rfl, rfl, rfl, fun d => ?_⟩
  cases cacheWrite <;> rfl

/-! ### C7: enrollment reads the cached decision -/

/-- A database whose only course is unpublished (fresh evaluation denies
with `CONTENT_NOT_PUBLISHED`), with an active verified user. -/
def dbUnpublished : Db :=
  ⟨[⟨1, true, true⟩], [], [⟨5, .beginner, false, true, false, []⟩],
   [], [], [], []⟩

/-- The granted decision a stale cache entry may hold. -/
def grantedResult : AccessResult := createAccessResult true .ACCESS_GRANTED .empty

/-- **C7 counterexample.**  Two `enrollUser` runs on the same database that
differ only in the cache contents reach different gating outcomes: with a
stale cached grant the enrollment succeeds, with an empty cache the fresh
evaluation denies — `enrollUser` goes through `checkContentAccess`, which
reads the cache first, rather than calling the evaluator directly. -/
theorem enroll_reads_cache_counterexample :
    enrollUser dbUnpublished (some grantedResult) 0 1 5 = .success ∧
    enrollUser dbUnpublished none 0 1 5 = .failure .CONTENT_NOT_PUBLISHED ∧
    (EnrollResult.success : EnrollResult) ≠ .failure .CONTENT_NOT_PUBLISHED := by
  decide

/-- **C7 amended.**  The gating decision `enroll` acts on is
`checkContentAccess`'s result: the cached decision for
`(userId, courseId, 'course')` when one is present — so cache contents can
change the gating outcome — and only on a cache miss the freshly computed
`AccessEvaluator` result (a miss behaves exactly as if the fresh decision
had been in the cache). -/
theorem enroll_gating_dataflow (db : Db) (now : Int) (userId courseId : Nat)
    (d : AccessResult) :
    (enrollUser db (some d) now userId courseId =
      if d.hasAccess = false then .failure d.code
      else if db.enrollments.any
          (fun e => decide (e.user_id = userId ∧ e.course_id = courseId)) then
        .failure .ALREADY_ENROLLED
      else .success) ∧
    (enrollUser db none now userId courseId =
      enrollUser db (some (evaluateAccess db now userId courseId .course))
        now userId courseId) := by
  exact ⟨rfl, rfl⟩

/-! ### C10: inactive users -/

/-- **C10.**  A user whose every `users` row is inactive gets the same
`USER_NOT_FOUND` denial as a user with no row at all (the lookup filters
on `is_active = true`), so an inactive account is indistinguishable from a
nonexistent one and no later check contributes to the decision. -/
theorem inactive_user_not_found (db : Db) (now : Int) (userId contentId : Nat)
    (contentType : ContentType) :
    ((∀ r ∈ db.users, r.id = userId → r.is_active = false) →
      evaluateAccess db now userId contentId contentType =
        createAccessResult false .USER_NOT_FOUND .empty) ∧
    ((∀ r ∈ db.users, r.id ≠ userId) →
      evaluateAccess db now userId contentId contentType =
        createAccessResult false .USER_NOT_FOUND .empty) := by
  constructor
  · intro h
    have hfind : db.users.find?
        (fun u => decide (u.id = userId ∧ u.is_active = true)) = none := by
      rw [List.find?_eq_none]
      intro a ha
      simp only [decide_eq_true_eq, not_and]
      intro hid
      simp [h a ha hid]
    unfold evaluateAccess getUserWithSubscription
    rw [hfind]
    rfl
  · intro h
    have hfind : db.users.find?
        (fun u => decide (u.id = userId ∧ u.is_active = true)) = none := by
      rw [List.find?_eq_none]
      intro a ha
      simp only [decide_eq_true_eq, not_and]
      intro hid
      exact absurd hid (h a ha)
    unfold evaluateAccess getUserWithSubscription
    rw [hfind]
    rfl

/-- A database with one inactive (but verified) user. -/
def dbInactive : Db := ⟨[⟨1, false, true⟩], [], [], [], [], [], []⟩

/-- Witness for `inactive_user_not_found` at a concrete database: user 1
exists but is inactive; user 9 does not exist; both get `USER_NOT_FOUND`. -/
theorem inactive_user_not_found_witness :
    evaluateAccess dbInactive 0 1 2 .course =
      createAccessResult false .USER_NOT_FOUND .empty ∧
    evaluateAccess dbInactive 0 9 2 .course =
      createAccessResult false .USER_NOT_FOUND .empty :=
  ⟨(inactive_user_not_found dbInactive 0 1 2 .course).1 (by decide),
   (inactive_user_not_found dbInactive 0 9 2 .course).2 (by decide)⟩

/-! ### C3: the level gate threshold -/

/-- Witness database for C2's free-content part: one published free
beginner course. -/
def dbFreeBeginner : Db :=
  ⟨[⟨1, true, true⟩], [], [⟨2, .beginner, true, true, false, []⟩],
   [], [], [], []⟩

/-- Witness for `subscription_check_characterization`: its free-content
part applied to a concrete database whose course 2 is free. -/
theorem subscription_check_characterization_witness :
    (evaluateAccess dbFreeBeginner 0 1 2 .course).code ≠
      .SUBSCRIPTION_REQUIRED ∧
    (evaluateAccess dbFreeBeginner 0 1 2 .course).code ≠
      .SUBSCRIPTION_EXPIRED :=
  subscription_check_characterization.2 dbFreeBeginner 0 1 2 .course
    ⟨2, .beginner, true, true, false, some [], none, none⟩
    (by decide) (by decide)

/-- A database where user 10's unweighted average completion over the two
published beginner courses is exactly 79.5: course 3 has 4 lessons with 3
completed (75%), course 4 has 25 lessons with 21 completed (84%).
Course 5 is intermediate with module 50. -/
def dbHalfway : Db :=
  ⟨[⟨10, true, true⟩], [],
   [⟨3, .beginner, true, true, false, []⟩, ⟨4, .beginner, true, true, false, []⟩,
    ⟨5, .intermediate, true, true, false, []⟩],
   [⟨30, 3, []⟩, ⟨40, 4, []⟩, ⟨50, 5, []⟩],
   ((List.range 4).map (fun i => (⟨100 + i, 30⟩ : LessonRow))) ++
     ((List.range 25).map (fun i => (⟨200 + i, 40⟩ : LessonRow))),
   ((List.range 3).map
       (fun i => (⟨10, 3, some 30, some (100 + i), .completed⟩ : ProgressRow))) ++
     ((List.range 21).map
       (fun i => (⟨10, 4, some 40, some (200 + i), .completed⟩ : ProgressRow))),
   []⟩

theorem dbHalfway_counts :
    totalLessonCount dbHalfway 3 = 4 ∧ completedLessonCount dbHalfway 10 3 = 3 ∧
    totalLessonCount dbHalfway 4 = 25 ∧
    completedLessonCount dbHalfway 10 4 = 21 := ⟨rfl, rfl, rfl, rfl⟩

theorem dbHalfway_completion3 : calculate_course_completion dbHalfway 10 3 = 75 := by
  rw [calculate_course_completion, dbHalfway_counts.1, dbHalfway_counts.2.1]
  norm_num

theorem dbHalfway_completion4 : calculate_course_completion dbHalfway 10 4 = 84 := by
  rw [calculate_course_completion, dbHalfway_counts.2.2.1, dbHalfway_counts.2.2.2]
  norm_num

theorem dbHalfway_beginner_filter :
    dbHalfway.courses.filter
      (fun c => decide (c.level = Level.beginner ∧ c.is_published = true)) =
    [⟨3, .beginner, true, true, false, []⟩,
     ⟨4, .beginner, true, true, false, []⟩] := rfl

theorem dbHalfway_avg : levelAvgQ dbHalfway 10 .beginner = 159 / 2 := by
  rw [levelAvgQ]
  simp only [dbHalfway_beginner_filter, List.map, dbHalfway_completion3,
    dbHalfway_completion4, List.sum_cons, List.sum_nil, List.length]
  norm_num

theorem dbHalfway_rounded : getLevelCompletion dbHalfway 10 .beginner = 80 := by
  rw [getLevelCompletion, dbHalfway_avg, roundQ]
  norm_num

/-- **C3 counterexample.**  For user 10 in `dbHalfway` the unweighted
average completion over the published beginner courses is 79.5 < 80, so
the claim demands that intermediate content be denied with
`PREREQUISITE_LEVEL_NOT_COMPLETED`; but the code rounds the average
(`Math.round(79.5) = 80`) *before* comparing against the threshold, and
grants access to the intermediate module 50. -/
theorem level_gate_raw_average_counterexample :
    levelAvgQ dbHalfway 10 .beginner = 159 / 2 ∧ (159 / 2 : ℚ) < 80 ∧
    evaluateAccess dbHalfway 0 10 50 .module =
      createAccessResult true .ACCESS_GRANTED .empty := by
  refine ⟨dbHalfway_avg, by norm_num, ?_⟩
  have hu : getUserWithSubscription dbHalfway 10 =
      some ⟨10, true, none, none, none⟩ := rfl
  have hc : getContentDetails dbHalfway 50 .module =
      some ⟨50, .intermediate, true, true, false, some [], some 5, none⟩ := rfl
  rw [evaluateAccess, hu, hc]
  simp [performAccessChecks, checkSubscriptionAccess, checkLevelAccess,
    dbHalfway_rounded, checkPrerequisites, createAccessResult]

/-- **C3 amended.**  The level gate grants beginner content always, and
intermediate (resp. advanced) content iff the *rounded* unweighted average
completion over all published beginner (resp. intermediate) courses is at
least 80, i.e. iff the raw average is ≥ 79.5; on failure the result
carries `requiredCompletion = 80` and `currentCompletion` equal to the
rounded average, and when the earlier pipeline checks pass, `evaluate`
returns exactly that failure result.  (Courses the user never started
contribute a completion of 0 to the average, which runs over every
published course of the lower level.) -/
theorem level_gate_rounded_threshold :
    (∀ (db : Db) (userId : Nat) (content : ContentRow),
      (content.level = .beginner → checkLevelAccess db userId content = none) ∧
      (content.level = .intermediate →
        ((checkLevelAccess db userId content = none ↔
          80 ≤ roundQ (levelAvgQ db userId .beginner)) ∧
         (roundQ (levelAvgQ db userId .beginner) < 80 →
          checkLevelAccess db userId content =
            some (createAccessResult false .PREREQUISITE_LEVEL_NOT_COMPLETED
              (.levelGate 80 (roundQ (levelAvgQ db userId .beginner))))))) ∧
      (content.level = .advanced →
        ((checkLevelAccess db userId content = none ↔
          80 ≤ roundQ (levelAvgQ db userId .intermediate)) ∧
         (roundQ (levelAvgQ db userId .intermediate) < 80 →
          checkLevelAccess db userId content =
            some (createAccessResult false .PREREQUISITE_LEVEL_NOT_COMPLETED
              (.levelGate 80 (roundQ (levelAvgQ db userId .intermediate)))))))) ∧
    (∀ (db : Db) (now : Int) (userId contentId : Nat) (cty : ContentType)
        (user : UserWithSub) (content : ContentRow) (r : AccessResult),
      getUserWithSubscription db userId = some user →
      getContentDetails db contentId cty = some content →
      content.is_published = true → user.is_verified = true →
      checkSubscriptionAccess now user content = none →
      checkLevelAccess db user.id content = some r →
      evaluateAccess db now userId contentId cty = r) := by
  constructor
  · intro db userId content
    refine ⟨fun h => ?_, fun h => ?_, fun h => ?_⟩
    · simp [checkLevelAccess, h]
    · unfold checkLevelAccess
      rw [h]
      simp only [getLevelCompletion]
      refine ⟨?_, fun hlt => ?_⟩
      · split_ifs with hc <;> simp <;> omega
      · simp [hlt]
    · unfold checkLevelAccess
      rw [h]
      simp only [getLevelCompletion]
      refine ⟨?_, fun hlt => ?_⟩
      · split_ifs with hc <;> simp <;> omega
      · simp [hlt]
  · intro db now userId contentId cty user content r hu hg hP hV hsub hL
    unfold evaluateAccess
    rw [hu, hg]
    unfold performAccessChecks
    simp [hP, hV, hsub, hL]

/-- A database with no beginner courses at all: the level average over the
empty set is 0 and intermediate content is denied with
`currentCompletion = 0`. -/
def dbNoBeginner : Db :=
  ⟨[⟨10, true, true⟩], [], [⟨5, .intermediate, true, true, false, []⟩],
   [⟨50, 5, []⟩], [], [], []⟩

/-- Witness for `level_gate_rounded_threshold`: in `dbNoBeginner` the
rounded beginner average is 0 < 80 and the gate denies intermediate
content with the rounded average in the metadata; beginner content is
always admitted; and the full `evaluate` pipeline surfaces the gate's
failure result. -/
theorem level_gate_rounded_threshold_witness :
    checkLevelAccess dbNoBeginner 10
      ⟨50, .intermediate, true, true, false, some [], some 5, none⟩ =
      some (createAccessResult false .PREREQUISITE_LEVEL_NOT_COMPLETED
        (.levelGate 80 (roundQ (levelAvgQ dbNoBeginner 10 .beginner)))) ∧
    checkLevelAccess dbNoBeginner 10
      ⟨50, .beginner, true, true, false, some [], some 5, none⟩ = none ∧
    evaluateAccess dbNoBeginner 0 10 50 .module =
      createAccessResult false .PREREQUISITE_LEVEL_NOT_COMPLETED
        (.levelGate 80 (roundQ (levelAvgQ dbNoBeginner 10 .beginner))) := by
  have havg : levelAvgQ dbNoBeginner 10 .beginner = 0 := rfl
  have hlt : roundQ (levelAvgQ dbNoBeginner 10 .beginner) < 80 := by
    rw [havg, roundQ]
    norm_num
  have h1 := ((level_gate_rounded_threshold.1 dbNoBeginner 10
    ⟨50, .intermediate, true, true, false, some [], some 5, none⟩).2.1 rfl).2 hlt
  refine ⟨h1, (level_gate_rounded_threshold.1 dbNoBeginner 10
    ⟨50, .beginner, true, true, false, some [], some 5, none⟩).1 rfl, ?_⟩
  exact level_gate_rounded_threshold.2 dbNoBeginner 0 10 50 .module
    ⟨10, true, none, none, none⟩
    ⟨50, .intermediate, true, true, false, some [], some 5, none⟩ _
    rfl rfl rfl rfl rfl h1

/-! ### C4: prerequisites -/

/-- The nearest representable form of the spec's scenario D: lesson 1
lives in module 20, module 20 declares module 21 as prerequisite, and user
10's progress on module 21 is `in_progress`.  (The schema gives lessons
themselves no prerequisites column.) -/
def dbLessonPrereq : Db :=
  ⟨[⟨10, true, true⟩], [],
   [⟨3, .beginner, true, true, false, []⟩],
   [⟨20, 3, [21]⟩, ⟨21, 3, []⟩],
   [⟨1, 20⟩],
   [⟨10, 3, some 21, none, .in_progress⟩],
   []⟩

/-- **C4 counterexample.**  The lesson lookup never selects a
prerequisites column, so the prerequisite check passes vacuously for
lessons: accessing lesson 1 is `ACCESS_GRANTED` even though accessing its
own module 20 is denied `PREREQUISITES_NOT_MET` because module 21 is only
`in_progress` — the claim's scenario of a lesson denied with
`PREREQUISITES_NOT_MET` cannot occur. -/
theorem lesson_prerequisites_counterexample :
    getContentDetails dbLessonPrereq 1 .lesson =
      some ⟨1, .beginner, true, true, false, none, some 3, some 20⟩ ∧
    evaluateAccess dbLessonPrereq 0 10 1 .lesson =
      createAccessResult true .ACCESS_GRANTED .empty ∧
    evaluateAccess dbLessonPrereq 0 10 20 .module =
      createAccessResult false .PREREQUISITES_NOT_MET (.prereq [21]) := by
  decide

/-- **C4 amended.**  For course and module content with a non-empty
prerequisite list, the check resolves every prerequisite id at the
granularity chosen by the *accessed content's type* — for course content
an id is completed iff some completed progress row of the user carries it
in its `course_id` column, for module (and would-be lesson) content iff
some completed row carries it in its `module_id` column — granting iff
every id is completed and otherwise failing with `PREREQUISITES_NOT_MET`
whose metadata lists *all* incomplete ids (in list order).  Lesson content
never carries prerequisites (the lesson query loads none), so the
prerequisite check always passes for lessons. -/
theorem prerequisite_check_characterization :
    (∀ (db : Db) (userId : Nat) (content : ContentRow)
        (contentType : ContentType) (l : List Nat),
      content.prerequisites = some l → l ≠ [] →
      ((checkPrerequisites db userId content contentType = none ↔
        ∀ pid ∈ l, prereqCompleted db userId contentType pid = true) ∧
       (checkPrerequisites db userId content contentType ≠ none →
        checkPrerequisites db userId content contentType =
          some (createAccessResult false .PREREQUISITES_NOT_MET
            (.prereq (l.filter
              (fun pid => !prereqCompleted db userId contentType pid))))))) ∧
    (∀ (db : Db) (userId contentId : Nat) (row : ContentRow),
      getContentDetails db contentId .lesson = some row →
      row.prerequisites = none ∧
      ∀ ct, checkPrerequisites db userId row ct = none) := by
  constructor
  · intro db userId content contentType l hp hne
    cases l with
    | nil => exact absurd rfl hne
    | cons a as =>
      have hck : checkPrerequisites db userId content contentType =
          (if 0 < ((a :: as).filter
              (fun pid => !prereqCompleted db userId contentType pid)).length then
            some (createAccessResult false .PREREQUISITES_NOT_MET
              (.prereq ((a :: as).filter
                (fun pid => !prereqCompleted db userId contentType pid))))
          else none) := by
        unfold checkPrerequisites
        rw [hp]
      rw [hck]
      constructor
      · split_ifs with hc
        · simp only [List.length_pos, ne_eq] at hc
          constructor
          · intro h
            exact absurd h (by simp)
          · intro hall
            exact absurd (List.filter_eq_nil_iff.mpr
              (fun x hx => by simp [hall x hx])) hc
        · simp only [Nat.not_lt, Nat.le_zero, List.length_eq_zero,
            List.filter_eq_nil_iff] at hc
          simp only [true_iff]
          intro pid hpid
          have hx := hc pid hpid
          simpa using hx
      · intro hne2
        split_ifs with hc
        · rfl
        · rw [if_neg hc] at hne2
          exact absurd rfl hne2
  · intro db userId contentId row h
    unfold getContentDetails at h
    simp only [Option.bind_eq_some, Option.map_eq_some'] at h
    obtain ⟨l, hl, m, hm, c, hc, hrow⟩ := h
    subst hrow
    exact ⟨rfl, fun ct => rfl⟩

/-! ### C5: calculate_course_completion -/

/-- Witness for `prerequisite_check_characterization` at `dbLessonPrereq`:
module 20's prerequisite list [21] is incomplete, and lesson 1's loaded
row carries no prerequisites so the check passes. -/
theorem prerequisite_check_characterization_witness :
    checkPrerequisites dbLessonPrereq 10
      ⟨20, .beginner, true, true, false, some [21], some 3, none⟩ .module =
      some (createAccessResult false .PREREQUISITES_NOT_MET
        (.prereq ([21].filter
          (fun pid => !prereqCompleted dbLessonPrereq 10 .module pid)))) ∧
    (⟨1, .beginner, true, true, false, none, some 3, some 20⟩ :
        ContentRow).prerequisites = none ∧
    checkPrerequisites dbLessonPrereq 10
      ⟨1, .beginner, true, true, false, none, some 3, some 20⟩ .lesson = none := by
  constructor
  · exact (prerequisite_check_characterization.1 dbLessonPrereq 10
      ⟨20, .beginner, true, true, false, some [21], some 3, none⟩ .module [21]
      rfl (by decide)).2 (by decide)
  · have h := prerequisite_check_characterization.2 dbLessonPrereq 10 1
      ⟨1, .beginner, true, true, false, none, some 3, some 20⟩ (by decide)
    exact ⟨h.1, h.2 .lesson⟩

/-- Sum of a 0/1 indicator over a list is the filtered length. -/
theorem listSumIndicator {α : Type} (p : α → Bool) (A : List α) :
    (A.map (fun a => if p a then (1 : Nat) else 0)).sum = (A.filter p).length := by
  induction A with
  | nil => rfl
  | cons a A ih =>
    simp only [List.map_cons, List.sum_cons, List.filter_cons, ih]
    by_cases h : p a
    · rw [if_pos h, if_pos h]
      simp only [List.length_cons]
      omega
    · rw [if_neg h, if_neg h]
      omega

/-- Sum of a constant-on-a-filter function. -/
theorem listSumIteConst {α : Type} (p : α → Bool) (k : Nat) (A : List α) :
    (A.map (fun a => if p a then k else 0)).sum = k * (A.filter p).length := by
  induction A with
  | nil => simp
  | cons a A ih =>
    simp only [List.map_cons, List.sum_cons, List.filter_cons, ih]
    by_cases h : p a
    · simp [h, Nat.mul_succ, Nat.add_comm]
    · simp [h]

/-- Exchange the two traversals of a double sum over lists. -/
theorem listSumSwap {α β : Type} (A : List α) (B : List β) (f : α → β → Nat) :
    (A.map (fun a => (B.map (fun b => f a b)).sum)).sum =
      (B.map (fun b => (A.map (fun a => f a b)).sum)).sum := by
  induction A with
  | nil => simp
  | cons a A ih =>
    simp only [List.map_cons, List.sum_cons, ih]
    clear ih
    induction B with
    | nil => simp
    | cons b B ihB =>
      simp only [List.map_cons, List.sum_cons]
      omega

/-- A filter whose predicate pins a key to a fixed value selects at most
one element of a list whose keys are pairwise distinct. -/
theorem listFilterLenLeOne {α : Type} (key : α → Nat) (x : Nat) (p : α → Bool)
    (hp : ∀ a, p a = true → key a = x) :
    ∀ A : List α, A.Pairwise (fun a b => key a ≠ key b) →
      (A.filter p).length ≤ 1 := by
  intro A
  induction A with
  | nil => intro _; simp
  | cons a A ih =>
    intro hpw
    rw [List.pairwise_cons] at hpw
    by_cases h : p a
    · rw [List.filter_cons_of_pos h]
      have hnil : A.filter p = [] := by
        rw [List.filter_eq_nil_iff]
        intro b hb hpb
        exact hpw.1 b hb ((hp a h).trans (hp b hpb).symm)
      simp [hnil]
    · rw [List.filter_cons_of_neg (by simpa using h)]
      exact ih hpw.2

/-- A filter is nonempty exactly when `any` holds. -/
theorem listFilterPosIffAny {α : Type} (p : α → Bool) (A : List α) :
    0 < (A.filter p).length ↔ A.any p = true := by
  rw [List.length_pos]
  constructor
  · intro hne
    rcases List.exists_mem_of_ne_nil _ hne with ⟨x, hx⟩
    rcases List.mem_filter.mp hx with ⟨hxa, hpx⟩
    exact List.any_eq_true.mpr ⟨x, hxa, hpx⟩
  · intro h hnil
    rcases List.any_eq_true.mp h with ⟨x, hx, hpx⟩
    exact absurd hpx (List.filter_eq_nil_iff.mp hnil x hx)

/-- Modelled from the spec: a lesson is reachable through the course's
modules iff some `modules` row ties it to the course. -/
def specReachable (db : Db) (courseId : Nat) (l : LessonRow) : Bool :=
  db.modules.any (fun m => decide (l.module_id = m.id ∧ m.course_id = courseId))

/-- Modelled from the spec: the user completed a lesson iff some progress
row of theirs for that lesson has `status = completed`. -/
def specCompletedByUser (db : Db) (userId : Nat) (l : LessonRow) : Bool :=
  db.user_progress.any (fun up => decide (up.user_id = userId ∧
    up.lesson_id = some l.id ∧ up.status = ProgressStatus.completed))

/-- Modelled from the spec: `totalLessonCount` as a count of reachable
lessons. -/
def specTotalLessons (db : Db) (courseId : Nat) : Nat :=
  (db.lessons.filter (specReachable db courseId)).length

/-- Modelled from the spec: `completedLessonCount` as a count of reachable
lessons the user completed. -/
def specCompletedLessons (db : Db) (userId courseId : Nat) : Nat :=
  (db.lessons.filter (fun l => specReachable db courseId l &&
    specCompletedByUser db userId l)).length

/-- The number of completed progress rows of a user for one lesson id. -/
def userCompletedRowsFor (db : Db) (userId lessonId : Nat) : Nat :=
  (db.user_progress.filter (fun up => decide (up.user_id = userId ∧
    up.lesson_id = some lessonId ∧
    up.status = ProgressStatus.completed))).length

theorem lessonModuleMatches_le_one (db : Db) (courseId : Nat) (l : LessonRow)
    (hm : db.modules.Pairwise (fun m1 m2 => m1.id ≠ m2.id)) :
    lessonModuleMatches db courseId l ≤ 1 := by
  refine listFilterLenLeOne (fun m => m.id) l.module_id _ ?_ db.modules hm
  intro m hm'
  exact (of_decide_eq_true hm').1.symm

theorem lessonModuleMatches_pos_iff (db : Db) (courseId : Nat) (l : LessonRow) :
    0 < lessonModuleMatches db courseId l ↔ specReachable db courseId l = true :=
  listFilterPosIffAny _ _

theorem totalLessonCount_eq_spec (db : Db) (courseId : Nat)
    (hm : db.modules.Pairwise (fun m1 m2 => m1.id ≠ m2.id)) :
    totalLessonCount db courseId = specTotalLessons db courseId := by
  unfold totalLessonCount specTotalLessons
  rw [← listSumIndicator (specReachable db courseId) db.lessons]
  refine congrArg List.sum (List.map_congr_left ?_)
  intro l _
  have h1 := lessonModuleMatches_le_one db courseId l hm
  have h2 := lessonModuleMatches_pos_iff db courseId l
  by_cases hr : specReachable db courseId l = true
  · rw [if_pos hr]
    have := h2.mpr hr
    omega
  · rw [if_neg hr]
    have : ¬ 0 < lessonModuleMatches db courseId l := fun hpos => hr (h2.mp hpos)
    omega

theorem completedLessonCount_eq_spec (db : Db) (userId courseId : Nat)
    (hm : db.modules.Pairwise (fun m1 m2 => m1.id ≠ m2.id))
    (hup : ∀ l ∈ db.lessons, userCompletedRowsFor db userId l.id ≤ 1) :
    completedLessonCount db userId courseId =
      specCompletedLessons db userId courseId := by
  unfold completedLessonCount specCompletedLessons
  have step1 : (db.user_progress.map (fun up =>
      if decide (up.user_id = userId ∧ up.status = ProgressStatus.completed) then
        (db.lessons.map (fun l =>
          if decide (up.lesson_id = some l.id) then
            lessonModuleMatches db courseId l
          else 0)).sum
      else 0)).sum =
      (db.user_progress.map (fun up => (db.lessons.map (fun l =>
        if decide (up.user_id = userId ∧ up.lesson_id = some l.id ∧
            up.status = ProgressStatus.completed) then
          lessonModuleMatches db courseId l
        else 0)).sum)).sum := by
    refine congrArg List.sum (List.map_congr_left ?_)
    intro up _
    by_cases hχ : up.user_id = userId ∧ up.status = ProgressStatus.completed
    · rw [if_pos (by simpa using hχ)]
      refine congrArg List.sum (List.map_congr_left ?_)
      intro l _
      by_cases hl : up.lesson_id = some l.id
      · rw [if_pos (by simpa using hl),
          if_pos (by simp [hχ.1, hχ.2, hl])]
      · rw [if_neg (by simpa using hl),
          if_neg (by simp [hl])]
    · rw [if_neg (by simpa using hχ)]
      refine (List.sum_eq_zero ?_).symm
      intro x hx
      rcases List.mem_map.mp hx with ⟨l, -, hxl⟩
      have : ¬(up.user_id = userId ∧ up.lesson_id = some l.id ∧
          up.status = ProgressStatus.completed) := by
        intro hcon
        exact hχ ⟨hcon.1, hcon.2.2⟩
      rw [if_neg (by simpa using this)] at hxl
      exact hxl.symm
  rw [step1, listSumSwap]
  rw [← listSumIndicator (fun l => specReachable db courseId l &&
    specCompletedByUser db userId l) db.lessons]
  refine congrArg List.sum (List.map_congr_left ?_)
  intro l hl
  have hconst : (db.user_progress.map (fun up =>
      if decide (up.user_id = userId ∧ up.lesson_id = some l.id ∧
          up.status = ProgressStatus.completed) then
        lessonModuleMatches db courseId l
      else 0)).sum =
      lessonModuleMatches db courseId l * userCompletedRowsFor db userId l.id :=
    listSumIteConst _ _ _
  rw [hconst]
  have hmm1 := lessonModuleMatches_le_one db courseId l hm
  have hmm2 := lessonModuleMatches_pos_iff db courseId l
  have hcnt1 := hup l hl
  have hcnt2 : 0 < userCompletedRowsFor db userId l.id ↔
      specCompletedByUser db userId l = true := listFilterPosIffAny _ _
  by_cases hr : specReachable db courseId l = true <;>
    by_cases hcb : specCompletedByUser db userId l = true
  · have ha := hmm2.mpr hr
    have hb := hcnt2.mpr hcb
    have hmmeq : lessonModuleMatches db courseId l = 1 := by omega
    have hcnteq : userCompletedRowsFor db userId l.id = 1 := by omega
    simp [hr, hcb, hmmeq, hcnteq]
  · have ha : ¬ 0 < userCompletedRowsFor db userId l.id :=
      fun hpos => hcb (hcnt2.mp hpos)
    have hcnteq : userCompletedRowsFor db userId l.id = 0 := by omega
    simp [hr, hcb, hcnteq]
  · have ha : ¬ 0 < lessonModuleMatches db courseId l :=
      fun hpos => hr (hmm2.mp hpos)
    have hmmeq : lessonModuleMatches db courseId l = 0 := by omega
    simp [hr, hcb, hmmeq]
  · have ha : ¬ 0 < lessonModuleMatches db courseId l :=
      fun hpos => hr (hmm2.mp hpos)
    have hmmeq : lessonModuleMatches db courseId l = 0 := by omega
    simp [hr, hcb, hmmeq]

theorem specCompleted_le_specTotal (db : Db) (userId courseId : Nat) :
    specCompletedLessons db userId courseId ≤ specTotalLessons db courseId := by
  unfold specCompletedLessons specTotalLessons
  rw [← List.countP_eq_length_filter, ← List.countP_eq_length_filter]
  refine List.countP_mono_left ?_
  intro l _ h
  have h2 : specReachable db courseId l = true ∧
      specCompletedByUser db userId l = true := by simpa using h
  simpa using h2.1

/-- **C5.**  Under the data-model invariants that module ids are unique
and a user has at most one completed progress row per lesson, the SQL
function equals `completedLessonCount / totalLessonCount * 100` with the
counts ranging over the lessons reachable through the course's modules
(`completed` meaning a progress row with `status = completed`), returns 0
when the total is 0, and always lies in [0, 100]. -/
theorem calculate_course_completion_spec (db : Db) (userId courseId : Nat)
    (hm : db.modules.Pairwise (fun m1 m2 => m1.id ≠ m2.id))
    (hup : ∀ l ∈ db.lessons, userCompletedRowsFor db userId l.id ≤ 1) :
    calculate_course_completion db userId courseId =
      (if specTotalLessons db courseId = 0 then 0 else
        (specCompletedLessons db userId courseId : ℚ) /
          (specTotalLessons db courseId : ℚ) * 100) ∧
    0 ≤ calculate_course_completion db userId courseId ∧
    calculate_course_completion db userId courseId ≤ 100 ∧
    (specTotalLessons db courseId = 0 →
      calculate_course_completion db userId courseId = 0) := by
  have ht := totalLessonCount_eq_spec db courseId hm
  have hc := completedLessonCount_eq_spec db userId courseId hm hup
  have hle := specCompleted_le_specTotal db userId courseId
  have heq : calculate_course_completion db userId courseId =
      (if specTotalLessons db courseId = 0 then 0 else
        (specCompletedLessons db userId courseId : ℚ) /
          (specTotalLessons db courseId : ℚ) * 100) := by
    unfold calculate_course_completion
    rw [ht, hc]
    by_cases h0 : specTotalLessons db courseId = 0
    · simp [h0]
    · have hpos : 0 < specTotalLessons db courseId := Nat.pos_of_ne_zero h0
      simp [h0, hpos]
  refine ⟨heq, ?_, ?_, fun h0 => by rw [heq, if_pos h0]⟩
  · rw [heq]
    by_cases h0 : specTotalLessons db courseId = 0
    · simp [h0]
    · rw [if_neg h0]
      positivity
  · rw [heq]
    by_cases h0 : specTotalLessons db courseId = 0
    · simp [h0]
    · rw [if_neg h0]
      have hpos : (0 : ℚ) < (specTotalLessons db courseId : ℚ) := by
        exact_mod_cast Nat.pos_of_ne_zero h0
      have hcle : (specCompletedLessons db userId courseId : ℚ) ≤
          (specTotalLessons db courseId : ℚ) := by exact_mod_cast hle
      have h1 : (specCompletedLessons db userId courseId : ℚ) /
          (specTotalLessons db courseId : ℚ) ≤ 1 :=
        (div_le_one hpos).mpr hcle
      linarith

/-- A two-lesson course of which user 10 completed one lesson: 50%. -/
def dbTiny : Db :=
  ⟨[⟨10, true, true⟩], [], [⟨3, .beginner, true, true, false, []⟩],
   [⟨30, 3, []⟩], [⟨1, 30⟩, ⟨2, 30⟩],
   [⟨10, 3, some 30, some 1, .completed⟩], []⟩

/-- Witness for `calculate_course_completion_spec` at `dbTiny` (2 lessons,
1 completed). -/
theorem calculate_course_completion_spec_witness :
    calculate_course_completion dbTiny 10 3 =
      (if specTotalLessons dbTiny 3 = 0 then 0 else
        (specCompletedLessons dbTiny 10 3 : ℚ) /
          (specTotalLessons dbTiny 3 : ℚ) * 100) ∧
    0 ≤ calculate_course_completion dbTiny 10 3 ∧
    calculate_course_completion dbTiny 10 3 ≤ 100 ∧
    (specTotalLessons dbTiny 3 = 0 →
      calculate_course_completion dbTiny 10 3 = 0) :=
  calculate_course_completion_spec dbTiny 10 3 (by decide) (by decide)

/-! ### C8: two racing enrollUser calls -/

/-- The two racing callers' final results under a schedule. -/
def raceOutcome (sched : List Bool) : Option EnrollResult × Option EnrollResult :=
  ((raceRun sched raceInit).res1, (raceRun sched raceInit).res2)

/-- **C8 counterexample.**  Under the schedule where both callers pass the
access check and the existence `SELECT` before either inserts, the loser's
`INSERT` hits the `UNIQUE(user_id, course_id)` violation, which
`enrollUser`'s generic `catch` converts to `SYSTEM_ERROR` — not the
claimed `ALREADY_ENROLLED`. -/
theorem concurrent_enroll_counterexample :
    (raceOutcome [true, true, false, false, true, false]).1 =
      some .success ∧
    (raceOutcome [true, true, false, false, true, false]).2 =
      some (.failure .SYSTEM_ERROR) ∧
    (raceOutcome [true, true, false, false, true, false]).2 ≠
      some (.failure .ALREADY_ENROLLED) := by decide

/-- **C8 amended.**  Starting from the only kind of state in which
`enrollUser` can reach its `INSERT` (a stale cached grant and no row),
every interleaving of the two callers' three database steps ends with
both callers holding a result (deterministic, non-crashing), exactly one
of them `success`; the other receives `ALREADY_ENROLLED` when its
existence `SELECT` runs after the winner's insert, and otherwise
`SYSTEM_ERROR` from the caught uniqueness violation — never a crash, but
not always the claimed `ALREADY_ENROLLED`. -/
theorem concurrent_enroll_outcomes (b1 b2 b3 b4 b5 b6 : Bool)
    (h : ([b1, b2, b3, b4, b5, b6].count true) = 3) :
    (((raceOutcome [b1, b2, b3, b4, b5, b6]).1 = some .success ∧
      (raceOutcome [b1, b2, b3, b4, b5, b6]).2 ≠ some .success) ∨
     ((raceOutcome [b1, b2, b3, b4, b5, b6]).2 = some .success ∧
      (raceOutcome [b1, b2, b3, b4, b5, b6]).1 ≠ some .success)) ∧
    ((raceOutcome [b1, b2, b3, b4, b5, b6]).1 = some .success ∨
     (raceOutcome [b1, b2, b3, b4, b5, b6]).1 =
        some (.failure .ALREADY_ENROLLED) ∨
     (raceOutcome [b1, b2, b3, b4, b5, b6]).1 =
        some (.failure .SYSTEM_ERROR)) ∧
    ((raceOutcome [b1, b2, b3, b4, b5, b6]).2 = some .success ∨
     (raceOutcome [b1, b2, b3, b4, b5, b6]).2 =
        some (.failure .ALREADY_ENROLLED) ∨
     (raceOutcome [b1, b2, b3, b4, b5, b6]).2 =
        some (.failure .SYSTEM_ERROR)) := by
  revert h
  revert b1 b2 b3 b4 b5 b6
  decide

/-- Witness for `concurrent_enroll_outcomes`: the fully serial schedule,
where the loser's existence check sees the winner's row and it receives
`ALREADY_ENROLLED`. -/
theorem concurrent_enroll_outcomes_witness :
    (((raceOutcome [true, true, true, false, false, false]).1 = some .success ∧
      (raceOutcome [true, true, true, false, false, false]).2 ≠ some .success) ∨
     ((raceOutcome [true, true, true, false, false, false]).2 = some .success ∧
      (raceOutcome [true, true, true, false, false, false]).1 ≠ some .success)) ∧
    ((raceOutcome [true, true, true, false, false, false]).1 = some .success ∨
     (raceOutcome [true, true, true, false, false, false]).1 =
        some (.failure .ALREADY_ENROLLED) ∨
     (raceOutcome [true, true, true, false, false, false]).1 =
        some (.failure .SYSTEM_ERROR)) ∧
    ((raceOutcome [true, true, true, false, false, false]).2 = some .success ∨
     (raceOutcome [true, true, true, false, false, false]).2 =
        some (.failure .ALREADY_ENROLLED) ∨
     (raceOutcome [true, true, true, false, false, false]).2 =
        some (.failure .SYSTEM_ERROR)) :=
  concurrent_enroll_outcomes true true true false false false (by decide)

/-! ### C9: enroll can never succeed through the engine's own states -/

/-- The invariant of engine-reachable states: no enrollment row exists and
no cached course decision grants. -/
def SysInv (s : SysState) : Prop :=
  s.enrollments = [] ∧
  ∀ e ∈ s.cache, e.1.contentType = ContentType.course → e.2.hasAccess = false

theorem evaluateAccess_course_no_row (db : Db) (now : Int)
    (userId courseId : Nat) (hdb : db.enrollments = []) :
    (evaluateAccess db now userId courseId .course).hasAccess = false := by
  unfold evaluateAccess
  cases hu : getUserWithSubscription db userId
  · simp [createAccessResult]
  · rename_i user
    cases hg : getContentDetails db courseId .course
    · simp [createAccessResult]
    · rename_i content
      have hE : checkEnrollment db now user.id content.id =
          some (createAccessResult false .NOT_ENROLLED .empty) := by
        unfold checkEnrollment
        rw [hdb]
        rfl
      cases hP : content.is_published <;> cases hV : user.is_verified <;>
        cases hS : checkSubscriptionAccess now user content <;>
        cases hL : checkLevelAccess db user.id content <;>
        cases hQ : checkPrerequisites db user.id content .course
      all_goals have hS1 : ∀ r,
          checkSubscriptionAccess now user content = some r →
          r.hasAccess = false :=
        fun r hr => (checkSubscriptionAccess_failure now user content r hr).1
      all_goals have hL1 : ∀ r,
          checkLevelAccess db user.id content = some r →
          r.hasAccess = false :=
        fun r hr => (checkLevelAccess_failure db user.id content r hr).1
      all_goals have hQ1 : ∀ r,
          checkPrerequisites db user.id content .course = some r →
          r.hasAccess = false :=
        fun r hr =>
          (checkPrerequisites_failure db user.id content .course r hr).1
      all_goals simp_all [performAccessChecks, createAccessResult]

theorem checkOp_course_denied (env : EnvDb) (now : Int) (userId courseId : Nat)
    (s : SysState) (hInv : SysInv s) :
    (checkOp env now userId courseId .course s).1.hasAccess = false := by
  cases hf : s.cache.find?
      (fun e => decide (e.1 = (⟨userId, courseId, .course⟩ : CacheKey))) with
  | some e =>
      have hmem := List.mem_of_find?_eq_some hf
      have hkey : e.1 = ⟨userId, courseId, .course⟩ := by
        have := List.find?_some hf
        simpa using this
      have hfst : (checkOp env now userId courseId .course s).1 = e.2 := by
        simp only [checkOp, hf]
      rw [hfst]
      exact hInv.2 e hmem (by rw [hkey])
  | none =>
      have hfst : (checkOp env now userId courseId .course s).1 =
          evaluateAccess (mkDb env s.enrollments) now userId courseId
            .course := by
        simp only [checkOp, hf]
      rw [hfst]
      exact evaluateAccess_course_no_row _ _ _ _ hInv.1

theorem checkOp_inv (env : EnvDb) (now : Int) (contentId userId : Nat)
    (contentType : ContentType) (s : SysState) (hInv : SysInv s) :
    SysInv (checkOp env now userId contentId contentType s).2 := by
  cases hf : s.cache.find?
      (fun e => decide (e.1 = (⟨userId, contentId, contentType⟩ : CacheKey))) with
  | some e =>
      have hsnd : (checkOp env now userId contentId contentType s).2 = s := by
        simp only [checkOp, hf]
      rw [hsnd]
      exact hInv
  | none =>
      have hsnd : (checkOp env now userId contentId contentType s).2 =
          ⟨(⟨⟨userId, contentId, contentType⟩,
              evaluateAccess (mkDb env s.enrollments) now userId contentId
                contentType⟩) :: s.cache, s.enrollments⟩ := by
        simp only [checkOp, hf]
      rw [hsnd]
      refine ⟨hInv.1, ?_⟩
      intro e he hcty
      rcases List.mem_cons.mp he with rfl | he'
      · have hcc : contentType = ContentType.course := hcty
        subst hcc
        exact evaluateAccess_course_no_row _ _ _ _ hInv.1
      · exact hInv.2 e he' hcty

theorem enrollOp_denied (env : EnvDb) (now : Int) (userId courseId : Nat)
    (s : SysState) (hInv : SysInv s) :
    (enrollOp env now userId courseId s).1 ≠ .success ∧
    SysInv (enrollOp env now userId courseId s).2 := by
  have hden := checkOp_course_denied env now userId courseId s hInv
  have hinv2 := checkOp_inv env now courseId userId .course s hInv
  unfold enrollOp
  rw [if_pos hden]
  exact ⟨by simp, hinv2⟩

theorem invalidateOp_inv (userId : Nat) (s : SysState) (hInv : SysInv s) :
    SysInv (invalidateOp userId s) := by
  refine ⟨hInv.1, ?_⟩
  intro e he hcty
  exact hInv.2 e (List.mem_of_mem_filter he) hcty

theorem reachable_inv : ∀ s, Reachable s → SysInv s := by
  intro s h
  induction h with
  | init => exact ⟨rfl, by intro e he; cases he⟩
  | check env now userId contentId contentType h ih =>
      exact checkOp_inv env now contentId userId contentType _ ih
  | enroll env now userId courseId h ih =>
      exact (enrollOp_denied env now userId courseId _ ih).2
  | invalidate userId h ih => exact invalidateOp_inv userId _ ih

/-- **C9.**  (i) In every state reachable through the engine's own
operations (enrollment rows created only by `enroll`), `enrollUser` never
returns success.  (ii) On a fresh evaluation with no enrollment row, when
every earlier check passes the pipeline fails at the enrollment step with
`NOT_ENROLLED` and `enroll` returns that denial.  (iii) When a row already
exists, `enroll` never succeeds: it returns `ALREADY_ENROLLED` whenever
the access decision it acts on grants, and an earlier denial code
otherwise. -/
theorem enroll_never_succeeds :
    (∀ s, Reachable s → ∀ (env : EnvDb) (now : Int) (userId courseId : Nat),
      (enrollOp env now userId courseId s).1 ≠ .success) ∧
    (∀ (db : Db) (now : Int) (userId courseId : Nat) (user : UserWithSub)
        (content : ContentRow),
      (∀ e ∈ db.enrollments,
        ¬(e.user_id = userId ∧ e.course_id = courseId)) →
      getUserWithSubscription db userId = some user →
      getContentDetails db courseId .course = some content →
      content.is_published = true → user.is_verified = true →
      checkSubscriptionAccess now user content = none →
      checkLevelAccess db user.id content = none →
      checkPrerequisites db user.id content .course = none →
      evaluateAccess db now userId courseId .course =
        createAccessResult false .NOT_ENROLLED .empty ∧
      enrollUser db none now userId courseId = .failure .NOT_ENROLLED) ∧
    (∀ (db : Db) (cached : Option AccessResult) (now : Int)
        (userId courseId : Nat),
      (∃ e ∈ db.enrollments, e.user_id = userId ∧ e.course_id = courseId) →
      enrollUser db cached now userId courseId ≠ .success ∧
      ((match cached with
        | some d => d
        | none => evaluateAccess db now userId courseId .course).hasAccess =
          true →
        enrollUser db cached now userId courseId =
          .failure .ALREADY_ENROLLED)) := by
  refine ⟨?_, ?_, ?_⟩
  · intro s hs env now userId courseId
    exact (enrollOp_denied env now userId courseId s (reachable_inv s hs)).1
  · intro db now userId courseId user content hno hu hg hP hV hS hL hQ
    have huid : user.id = userId := by
      unfold getUserWithSubscription at hu
      rcases Option.map_eq_some'.mp hu with ⟨u0, hfind, hmap⟩
      have hid : u0.id = userId := by
        have := List.find?_some hfind
        exact (of_decide_eq_true this).1
      cases hs0 : db.subscriptions.find? (fun s => decide (s.user_id = u0.id)) <;>
        rw [hs0] at hmap <;> rw [← hmap] <;> exact hid
    have hcid : content.id = courseId := by
      unfold getContentDetails at hg
      rcases Option.map_eq_some'.mp hg with ⟨c0, hfind, hmap⟩
      have hid : c0.id = courseId := by
        have := List.find?_some hfind
        exact of_decide_eq_true this
      rw [← hmap]
      exact hid
    have hE : checkEnrollment db now user.id content.id =
        some (createAccessResult false .NOT_ENROLLED .empty) := by
      unfold checkEnrollment
      have hfind : db.enrollments.find?
          (fun e => decide (e.user_id = user.id ∧ e.course_id = content.id)) =
          none := by
        rw [List.find?_eq_none]
        intro e he
        rw [huid, hcid]
        simpa using hno e he
      rw [hfind]
    have heval : evaluateAccess db now userId courseId .course =
        createAccessResult false .NOT_ENROLLED .empty := by
      unfold evaluateAccess
      rw [hu, hg]
      unfold performAccessChecks
      simp [hP, hV, hS, hL, hQ, hE]
    refine ⟨heval, ?_⟩
    unfold enrollUser
    rw [heval]
    rfl
  · intro db cached now userId courseId hex
    rcases hex with ⟨e, he, he1, he2⟩
    have hany : db.enrollments.any
        (fun e => decide (e.user_id = userId ∧ e.course_id = courseId)) =
        true :=
      List.any_eq_true.mpr ⟨e, he, by simp [he1, he2]⟩
    cases cached with
    | some d =>
        by_cases ha : d.hasAccess = false
        · constructor
          · unfold enrollUser
            rw [if_pos ha]
            simp
          · intro htrue
            rw [htrue] at ha
            simp at ha
        · have heq : enrollUser db (some d) now userId courseId =
              .failure .ALREADY_ENROLLED := by
            unfold enrollUser
            rw [if_neg ha, if_pos hany]
          exact ⟨by rw [heq]; simp, fun _ => heq⟩
    | none =>
        by_cases ha :
            (evaluateAccess db now userId courseId .course).hasAccess = false
        · constructor
          · unfold enrollUser
            rw [if_pos ha]
            simp
          · intro htrue
            rw [htrue] at ha
            simp at ha
        · have heq : enrollUser db none now userId courseId =
              .failure .ALREADY_ENROLLED := by
            unfold enrollUser
            rw [if_neg ha, if_pos hany]
          exact ⟨by rw [heq]; simp, fun _ => heq⟩

/-- Witness for `enroll_never_succeeds`: (i) at the initial empty state,
(ii) at a database where user 1 passes every earlier check for free
published beginner course 2 but holds no enrollment row, (iii) at the
same database with an enrollment row present. -/
theorem enroll_never_succeeds_witness :
    (enrollOp raceEnv 0 1 2 ⟨[], []⟩).1 ≠ .success ∧
    (evaluateAccess (mkDb raceEnv []) 0 1 2 .course =
        createAccessResult false .NOT_ENROLLED .empty ∧
      enrollUser (mkDb raceEnv []) none 0 1 2 = .failure .NOT_ENROLLED) ∧
    enrollUser (mkDb raceEnv [⟨1, 2, true, none⟩]) none 0 1 2 ≠ .success :=
  ⟨enroll_never_succeeds.1 ⟨[], []⟩ Reachable.init raceEnv 0 1 2,
   enroll_never_succeeds.2.1 (mkDb raceEnv []) 0 1 2
     ⟨1, true, none, none, none⟩
     ⟨2, .beginner, true, true, false, some [], none, none⟩
     (by decide) rfl rfl rfl rfl rfl rfl rfl,
   (enroll_never_succeeds.2.2 (mkDb raceEnv [⟨1, 2, true, none⟩]) none 0 1 2
     ⟨⟨1, 2, true, none⟩, by decide, by decide, by decide⟩).1⟩
